import Mathlib

/-!
# Verification of the VAT-rates ETL pipeline

A shallow embedding of `src/pipeline.ipynb` from the `vat-case-study`
repository: a scheduled extract-transform-load job that fetches a JSON
document of European VAT rates, decides via a 24-hour window on the
document's `last_updated` timestamp whether the warehouse needs an
update, reshapes the document into tabular rows, and loads them.

Embedding conventions:
* Timestamps are modelled as `Int` seconds (UTC epoch); the source's
  `timedelta(hours=24)` becomes the literal `24 * 3600`.  The current
  time (`datetime.now()` in the source) is an explicit parameter.
* Rate values are modelled as rationals `ℚ`, standing for the
  floating-point numbers of the source; a JSON value that is a numeric
  string is modelled by the `RateIn.str` constructor carrying the
  rational the string denotes.
* Fallible Python code (raised exceptions) becomes `Except` /
  `Option`-returning functions.
* The warehouse is a pair of row lists (`VATRates` current table and
  `VATRatesHistory` table); SQL effects become explicit state passing.

Two functions of the notebook are declared but not implemented in the
source: the body of `transform_df` is the placeholder
`pd.DataFrame([])` under a docstring describing the intended
transformation, and the loader's SQL transaction exists only as
numbered comments.  For the claims that concern those parts, separate
definitions marked `Modelled from the spec:` follow the specification's
words; the literal placeholders are also embedded as written
(`transform_df`, `load`) and used for the claims about the literal
code.
-/

namespace VatETL

/-- An input rate value as it appears in the fetched JSON: either a
number or a numeric string.  `str q` models a string spelling the
number `q` (the transformer is required to coerce both to a
floating-point value). -/
inductive RateIn where
  | num (q : ℚ)
  | str (q : ℚ)
  deriving DecidableEq, Repr

/-- One country's entry of the fetched snapshot: a country code and an
association list from rate-category name to rate value.  A category
absent from the list is a missing rate field. -/
structure CountryRates where
  country : String
  rates : List (String × RateIn)
  deriving DecidableEq, Repr

/-- `RateSnapshot`: the fetched JSON document — a collection of
per-country rate records plus a single top-level `last_updated`
timestamp (modelled as epoch seconds). -/
structure Snapshot where
  rates : List CountryRates
  last_updated : Int
  deriving DecidableEq, Repr

/-- A transformed tabular row: one country, one column per rate
category (numeric, missing values defaulted), and the snapshot's
`last_updated` attached. -/
structure Row where
  country : String
  rates : List (String × ℚ)
  last_updated : Int
  deriving DecidableEq, Repr

/-- The detector's result, the dict
`{'vat_rates': df, 'update_needed': update_needed}` returned by
`transform`. -/
structure Decision where
  vat_rates : List Row
  update_needed : Bool
  deriving DecidableEq, Repr

/-- The warehouse state: the current table `VATRates` and the
append-only `VATRatesHistory` table. -/
structure DB where
  current : List Row
  history : List Row
  deriving DecidableEq, Repr

/-- The body of an HTTP response, abstracted at the granularity
`json.loads` observes: empty, malformed text, or a well-formed JSON
document (which for this feed is a rate snapshot). -/
inductive Body where
  | empty
  | malformed (s : String)
  | json (doc : Snapshot)
  deriving DecidableEq, Repr

/-- An HTTP response as `requests` presents it: `ok` is the Python
truthiness of the response object (`False` for HTTP error statuses),
`body` its content. -/
structure Response where
  ok : Bool
  body : Body
  deriving DecidableEq, Repr

/-- `json.loads` on a response body: succeeds exactly on a well-formed
JSON document (an empty body is not valid JSON). -/
def json_loads : Body → Option Snapshot
  | .json doc => some doc
  | .empty => none
  | .malformed _ => none

/-- `extract(url)` from the source notebook.  The HTTP `GET` is
abstracted as the `Option Response` argument: `none` models
`requests.get` itself raising (no response at all); otherwise the
source checks `if not res: raise Exception('No data fetched')` (the
response object's truthiness, i.e. `ok`) and then runs
`json.loads(res.content)`. -/
def extract (res : Option Response) : Except String Snapshot :=
  match res with
  | none => .error "requests exception: no response"
  | some r =>
    if !r.ok then .error "No data fetched"
    else
      match json_loads r.body with
      | none => .error "JSONDecodeError"
      | some doc => .ok doc

/-- Whether an `extract` outcome is an error (a raised exception in the
source). -/
def isError : Except String Snapshot → Bool
  | .error _ => true
  | .ok _ => false

/-- The error condition exactly as the claim states it: "the HTTP
response is absent, empty, or its body is not valid JSON".  This
definition follows the specification's words (not the source), to be
compared against the behaviour of `extract`. -/
def claimedFetchError (res : Option Response) : Bool :=
  match res with
  | none => true
  | some r => (r.body == Body.empty) || (json_loads r.body).isNone

/-- `connect_db()` from the source: the Snowflake connection is
commented out and the placeholder cursor `''` is returned. -/
def connect_db : String := ""

/-- `query_db(cursor)` from the source: the probe of `VATRates` is
commented out and the function returns `True` unconditionally. -/
def query_db (_cursor : String) : Bool := true

/-- `transform_df(data)` as written in the source: the body is the
placeholder `return pd.DataFrame([])` (the docstring describes the
intended transformation, which is not implemented). -/
def transform_df (_data : Snapshot) : List Row := []

/-- `transform(data, data_loaded)` from the source, parameterised over
the row-building function `tdf` so that both the literal
`transform_df` and the spec-modelled one instantiate it.  `now` is the
explicit current time (`datetime.now()` in the source); the window
check is `now_date - timedelta(hours=24) <= last_updated <= now_date`. -/
def transformWith (tdf : Snapshot → List Row) (data : Snapshot)
    (data_loaded : Bool) (now : Int) : Decision :=
  if data_loaded then
    if now - 24 * 3600 ≤ data.last_updated ∧ data.last_updated ≤ now then
      { vat_rates := tdf data, update_needed := true }
    else
      { vat_rates := [], update_needed := false }
  else
    { vat_rates := tdf data, update_needed := false }

/-- The literal `transform` of the source: the window logic applied to
the placeholder `transform_df`. -/
def transform (data : Snapshot) (data_loaded : Bool) (now : Int) : Decision :=
  transformWith transform_df data data_loaded now

/-- The union of rate-category names occurring across all countries of
a snapshot, in first-occurrence order: the column set of the resulting
frame (a pandas frame built from a dict of dicts has one column per
key seen anywhere, with missing entries to be filled). -/
def allRateFields (s : Snapshot) : List String :=
  (s.rates.foldl (fun acc c => acc ++ c.rates.map Prod.fst) []).dedup

/-- Look a rate category up in one country's association list. -/
def lookupRate (rates : List (String × RateIn)) (f : String) : Option RateIn :=
  (rates.find? (fun p => p.1 == f)).map Prod.snd

/-- Coerce an input rate value to a numeric (float) value: a missing
field becomes `0.0`; a number or a numeric string becomes the number it
denotes. -/
def coerceRate : Option RateIn → ℚ
  | none => 0
  | some (.num q) => q
  | some (.str q) => q

/-- The row the transformation produces for one country of a snapshot:
one column per rate category of the snapshot, each value coerced (with
missing fields defaulted), and the snapshot's single `last_updated`
attached. -/
def mkRow (s : Snapshot) (c : CountryRates) : Row :=
  { country := c.country
    rates := (allRateFields s).map (fun f => (f, coerceRate (lookupRate c.rates f)))
    last_updated := s.last_updated }

/-- Modelled from the spec: the body of `transform_df` is missing from
the source (the placeholder `pd.DataFrame([])` stands under a
docstring).  Per the docstring and spec §4.3: one row per country, one
column per rate category, missing values replaced by `0`, numeric
columns coerced to float, and the snapshot's `last_updated` attached
to every row. -/
def transform_df_spec (s : Snapshot) : List Row :=
  s.rates.map (mkRow s)

/-- The detector with the spec-modelled row builder: the source's
window logic applied to `transform_df_spec`. -/
def transformSpec (data : Snapshot) (data_loaded : Bool) (now : Int) : Decision :=
  transformWith transform_df_spec data data_loaded now

/-- `load(data, db_cursor)` as written in the source: both branches
only print a message — the insert and the transaction exist solely as
comments, so no database write is performed on any path and the
warehouse state is returned unchanged. -/
def load (data : Decision) (db : DB) : DB :=
  if data.vat_rates.length > 0 then
    if data.update_needed then
      db
    else
      db
  else
    db

/-- Step 1 of the loader's update path: insert the rows of `VATRates`
into `VATRatesHistory`. -/
def moveCurrentToHistory (db : DB) : DB :=
  { db with history := db.history ++ db.current }

/-- Step 2 of the loader's update path: delete all rows from
`VATRates`. -/
def deleteCurrent (db : DB) : DB :=
  { db with current := [] }

/-- Step 3 of the loader's update path: insert the new rows into
`VATRates`. -/
def insertRows (rows : List Row) (db : DB) : DB :=
  { db with current := db.current ++ rows }

/-- The three steps of the update path, in order. -/
def updateSteps (rows : List Row) : List (DB → DB) :=
  [moveCurrentToHistory, deleteCurrent, insertRows rows]

/-- Modelled from the spec: the loader's update-path SQL exists only as
numbered comments in the source; per spec §4.4/§5 the three steps
execute within one database transaction — on commit all steps apply in
order, and a failure at any point (`failAt = some k`, a failure before
completing step `k`) rolls the transaction back, leaving the observable
database unchanged. -/
def runUpdateTxn (rows : List Row) (db : DB) (failAt : Option (Fin 3)) : DB :=
  match failAt with
  | some _ => db
  | none => (updateSteps rows).foldl (fun d f => f d) db

/-- Modelled from the spec: the loader with its two write paths made
explicit (the source only sketches them in comments).  Rows empty:
no-op.  `update_needed` true: the three-step transaction.
`update_needed` false (first load): plain insert into the current
table. -/
def loadSpec (data : Decision) (db : DB) (failAt : Option (Fin 3)) : DB :=
  if data.vat_rates.length > 0 then
    if data.update_needed then
      runUpdateTxn data.vat_rates db failAt
    else
      { db with current := db.current ++ data.vat_rates }
  else
    db

/-- `prefect_flow()` from the source: the linear wiring
connect -> probe -> extract -> transform -> load.  The HTTP layer is
the `res` argument, the current time is `now`, the warehouse state is
`db`; a failing task (here: `extract`) aborts the flow. -/
def prefect_flow (res : Option Response) (now : Int) (db : DB) :
    Except String (Decision × DB) :=
  let db_cursor := connect_db
  let data_loaded := query_db db_cursor
  match extract res with
  | .error e => .error e
  | .ok vat_info =>
    let data := transform vat_info data_loaded now
    .ok (data, load data db)

/-- A sample transformed row, used to instantiate loader theorems. -/
def sampleRow : Row :=
  { country := "DE", rates := [("standard", (19 : ℚ))], last_updated := 5 }

/-- A sample superseded row, used as pre-existing current-table content. -/
def sampleRowOld : Row :=
  { country := "DE", rates := [("standard", (16 : ℚ))], last_updated := 1 }

/-- A sample snapshot with two countries, a numeric rate, a
numeric-string rate, and a missing rate field. -/
def sampleSnap : Snapshot :=
  { rates := [
      { country := "DE", rates := [("standard", RateIn.num 19)] },
      { country := "FR", rates := [("standard", RateIn.str 20), ("reduced", RateIn.num (11 / 2))] }],
    last_updated := 5 }

/-- C10: the `load` of the source performs no database write on any
path — for every decision (rows empty or not, `update_needed` true or
false) both the current table and the history table are unchanged. -/
theorem load_no_db_write (data : Decision) (db : DB) :
    (load data db).current = db.current ∧ (load data db).history = db.history := by
  unfold load
  split <;> [skip; exact ⟨rfl, rfl⟩]
  split <;> exact ⟨rfl, rfl⟩

/-- C9: the table-has-data probe `query_db` returns `true` for every
cursor, so inside `prefect_flow` the detector `transform` is always
invoked with `data_loaded = true`: whenever extraction succeeds the
flow's decision is exactly `transform vat_info true now`, and the
first-load (table empty) branch of the detector is never taken from
the pipeline's entry point. -/
theorem pipeline_probe_always_true :
    (∀ c : String, query_db c = true) ∧
    ∀ (res : Option Response) (now : Int) (db : DB),
      prefect_flow res now db =
        (extract res).map (fun v => (transform v true now, load (transform v true now) db)) := by
  refine ⟨fun _ => rfl, fun res now db => ?_⟩
  unfold prefect_flow
  cases extract res <;> rfl

/-- C4: for a non-empty current table, a snapshot whose `last_updated`
is strictly more than 24 hours before the current time falls outside
the update window, so the detector produces empty rows and
`update_needed = false` — for any row-building function, in particular
both the literal `transform_df` and the spec-modelled
`transform_df_spec`. -/
theorem detector_stale_snapshot_skipped (tdf : Snapshot → List Row)
    (s : Snapshot) (now : Int) (h : s.last_updated < now - 24 * 3600) :
    transformWith tdf s true now = { vat_rates := [], update_needed := false } := by
  simp [transformWith]
  omega

/-- Witness for C4: a snapshot stamped far in the past is skipped. -/
theorem detector_stale_snapshot_skipped_witness :
    (Snapshot.mk [] (-100000)).last_updated < 0 - 24 * 3600 ∧
    transformWith transform_df (Snapshot.mk [] (-100000)) true 0 =
      { vat_rates := [], update_needed := false } :=
  ⟨by decide,
   detector_stale_snapshot_skipped transform_df (Snapshot.mk [] (-100000)) 0 (by decide)⟩

/-- C5: for a non-empty current table, a snapshot whose `last_updated`
lies strictly in the future (clock skew) fails the window's upper
bound, so the detector produces empty rows and
`update_needed = false` — for any row-building function. -/
theorem detector_future_snapshot_skipped (tdf : Snapshot → List Row)
    (s : Snapshot) (now : Int) (h : now < s.last_updated) :
    transformWith tdf s true now = { vat_rates := [], update_needed := false } := by
  simp [transformWith]
  omega

/-- Witness for C5: a snapshot stamped in the future is skipped. -/
theorem detector_future_snapshot_skipped_witness :
    (0 : Int) < (Snapshot.mk [] 50).last_updated ∧
    transformWith transform_df (Snapshot.mk [] 50) true 0 =
      { vat_rates := [], update_needed := false } :=
  ⟨by decide,
   detector_future_snapshot_skipped transform_df (Snapshot.mk [] 50) 0 (by decide)⟩

/-- C8: the detector is deterministic — two calls with the same
snapshot, the same `table_has_data` flag and the same current time
yield identical decisions; the embedding is a pure function of exactly
those inputs (the source's only implicit input, the real-time clock,
is the explicit `now` parameter). -/
theorem detector_deterministic (tdf : Snapshot → List Row) (s : Snapshot)
    (b : Bool) (now : Int) (d1 d2 : Decision)
    (h1 : d1 = transformWith tdf s b now) (h2 : d2 = transformWith tdf s b now) :
    d1 = d2 := by
  rw [h1, h2]

/-- Witness for C8: two identical detector calls agree on a concrete
snapshot. -/
theorem detector_deterministic_witness :
    transformWith transform_df sampleSnap true 0 =
      transformWith transform_df sampleSnap true 0 :=
  detector_deterministic transform_df sampleSnap true 0 _ _ rfl rfl

/-- C3: when the current table is empty (`table_has_data = false`) the
detector always transforms and marks `update_needed = false`,
regardless of the snapshot's `last_updated` value; the transformed
rows are non-empty for a snapshot with at least one country.  (Row
content per the spec-modelled `transform_df_spec`, the source body of
`transform_df` being a placeholder.) -/
theorem detector_first_load (s : Snapshot) (now : Int) :
    transformSpec s false now =
      { vat_rates := transform_df_spec s, update_needed := false } ∧
    (s.rates ≠ [] → (transformSpec s false now).vat_rates ≠ []) := by
  constructor
  · simp [transformSpec, transformWith]
  · intro h
    simp [transformSpec, transformWith, transform_df_spec]
    exact h

/-- Witness for C3: a one-country snapshot on an empty table is
transformed with `update_needed = false` and non-empty rows. -/
theorem detector_first_load_witness :
    sampleSnap.rates ≠ [] ∧ (transformSpec sampleSnap false 0).vat_rates ≠ [] :=
  ⟨by simp [sampleSnap], (detector_first_load sampleSnap 0).2 (by simp [sampleSnap])⟩

/-- Counterexample to C2 as universally stated: a snapshot with no
countries but an in-window `last_updated` (here both the timestamp and
the current time are `0`), with `table_has_data = true`, yields
`update_needed = true` but EMPTY rows, refuting "non-empty rows" for
that input. -/
theorem detector_in_window_counterexample :
    ((0 : Int) - 24 * 3600 ≤ (Snapshot.mk [] 0).last_updated ∧
      (Snapshot.mk [] 0).last_updated ≤ (0 : Int)) ∧
    (transformSpec (Snapshot.mk [] 0) true 0).update_needed = true ∧
    (transformSpec (Snapshot.mk [] 0) true 0).vat_rates = [] := by
  refine ⟨by decide, ?_, ?_⟩ <;>
    simp [transformSpec, transformWith, transform_df_spec]

/-- C2 (amended): for a snapshot with at least one country whose
`last_updated` lies within the trailing 24-hour window, with
`table_has_data = true`, the detector returns `update_needed = true`
and non-empty rows (rows per the spec-modelled `transform_df_spec`). -/
theorem detector_in_window_update (s : Snapshot) (now : Int)
    (hne : s.rates ≠ []) (h1 : now - 24 * 3600 ≤ s.last_updated)
    (h2 : s.last_updated ≤ now) :
    (transformSpec s true now).update_needed = true ∧
    (transformSpec s true now).vat_rates ≠ [] := by
  have hc : now - 24 * 3600 ≤ s.last_updated ∧ s.last_updated ≤ now := ⟨h1, h2⟩
  have he : transformSpec s true now =
      { vat_rates := transform_df_spec s, update_needed := true } := by
    unfold transformSpec transformWith
    rw [if_pos rfl, if_pos hc]
  rw [he]
  refine ⟨rfl, ?_⟩
  simp [transform_df_spec]
  exact hne

/-- Witness for C2 (amended): a two-country snapshot stamped at the
current time is transformed with `update_needed = true`. -/
theorem detector_in_window_update_witness :
    (transformSpec sampleSnap true 5).update_needed = true ∧
    (transformSpec sampleSnap true 5).vat_rates ≠ [] :=
  detector_in_window_update sampleSnap 5 (by simp [sampleSnap]) (by decide) (by decide)

/-- C1: the loader's update path (non-empty rows, `update_needed =
true`), modelled with the spec's transactional semantics
(`runUpdateTxn`), is atomic: a failure at any point leaves the
database exactly as before (current table content retained, history
table gains no rows); a committed run moves the old current rows to
the history table and replaces the current table with the new rows;
and no third (partial) state is ever observable. -/
theorem loader_update_txn_atomic (rows : List Row) (db : DB)
    (failAt : Option (Fin 3)) (hne : rows ≠ []) :
    (∀ k, failAt = some k →
      loadSpec { vat_rates := rows, update_needed := true } db failAt = db) ∧
    (failAt = none →
      loadSpec { vat_rates := rows, update_needed := true } db failAt =
        { current := rows, history := db.history ++ db.current }) ∧
    (loadSpec { vat_rates := rows, update_needed := true } db failAt = db ∨
     loadSpec { vat_rates := rows, update_needed := true } db failAt =
       { current := rows, history := db.history ++ db.current }) := by
  have hlen : 0 < rows.length := List.length_pos.mpr hne
  have hload : loadSpec { vat_rates := rows, update_needed := true } db failAt =
      runUpdateTxn rows db failAt := by
    simp [loadSpec, hlen]
  cases failAt with
  | some k =>
    have hk : runUpdateTxn rows db (some k) = db := rfl
    refine ⟨?_, ?_, ?_⟩
    · intro _ _
      rw [hload, hk]
    · intro hh
      exact absurd hh (by simp)
    · exact Or.inl (by rw [hload, hk])
  | none =>
    have hfin : runUpdateTxn rows db none =
        { current := rows, history := db.history ++ db.current } := by
      simp [runUpdateTxn, updateSteps, moveCurrentToHistory, deleteCurrent, insertRows]
    refine ⟨?_, ?_, ?_⟩
    · intro k hk
      exact absurd hk (by simp)
    · intro _
      rw [hload, hfin]
    · exact Or.inr (by rw [hload, hfin])

/-- Witness for C1: with one pre-existing row and one new row, a
failure before step 2 leaves the database untouched, and a committed
run archives the old row and installs the new one. -/
theorem loader_update_txn_atomic_witness :
    loadSpec { vat_rates := [sampleRow], update_needed := true }
        { current := [sampleRowOld], history := [] } (some 1) =
      { current := [sampleRowOld], history := [] } ∧
    loadSpec { vat_rates := [sampleRow], update_needed := true }
        { current := [sampleRowOld], history := [] } none =
      { current := [sampleRow], history := [sampleRowOld] } := by
  refine ⟨(loader_update_txn_atomic [sampleRow] _ (some 1) (by simp)).1 1 rfl, ?_⟩
  have h := (loader_update_txn_atomic [sampleRow]
    { current := [sampleRowOld], history := [] } none (by simp)).2.1 rfl
  simpa using h

/-- C6: the spec-modelled transformation produces one row per country
(in order); every output row carries the snapshot's `last_updated` and
exactly the snapshot's rate-category columns; a category missing from
a country's input appears as `0` in its row; and a category given as a
number or as a numeric string both appear as the numeric value they
denote. -/
theorem transformer_rows_shape (s : Snapshot) :
    (transform_df_spec s).length = s.rates.length ∧
    ∀ (i : ℕ) (h1 : i < s.rates.length) (h2 : i < (transform_df_spec s).length),
      ((transform_df_spec s).get ⟨i, h2⟩).country = (s.rates.get ⟨i, h1⟩).country ∧
      ((transform_df_spec s).get ⟨i, h2⟩).last_updated = s.last_updated ∧
      ((transform_df_spec s).get ⟨i, h2⟩).rates.map Prod.fst = allRateFields s ∧
      ∀ f : String, f ∈ allRateFields s →
        (lookupRate (s.rates.get ⟨i, h1⟩).rates f = none →
          (f, (0 : ℚ)) ∈ ((transform_df_spec s).get ⟨i, h2⟩).rates) ∧
        (∀ q : ℚ, lookupRate (s.rates.get ⟨i, h1⟩).rates f = some (RateIn.num q) →
          (f, q) ∈ ((transform_df_spec s).get ⟨i, h2⟩).rates) ∧
        (∀ q : ℚ, lookupRate (s.rates.get ⟨i, h1⟩).rates f = some (RateIn.str q) →
          (f, q) ∈ ((transform_df_spec s).get ⟨i, h2⟩).rates) := by
  refine ⟨by simp [transform_df_spec], ?_⟩
  intro i h1 h2
  have hget : (transform_df_spec s).get ⟨i, h2⟩ = mkRow s (s.rates.get ⟨i, h1⟩) := by
    simp [transform_df_spec, List.get_eq_getElem, List.getElem_map]
  rw [hget]
  generalize s.rates.get ⟨i, h1⟩ = c
  refine ⟨rfl, rfl, ?_, ?_⟩
  · simp [mkRow, List.map_map, Function.comp_def]
  · intro f hf
    refine ⟨fun hnone => ?_, fun q hq => ?_, fun q hq => ?_⟩
    · simp only [mkRow]
      exact List.mem_map.mpr ⟨f, hf, by simp [hnone, coerceRate]⟩
    · simp only [mkRow]
      exact List.mem_map.mpr ⟨f, hf, by simp [hq, coerceRate]⟩
    · simp only [mkRow]
      exact List.mem_map.mpr ⟨f, hf, by simp [hq, coerceRate]⟩

/-- Witness for C6: on the sample snapshot, country `DE` (row 0) keeps
its numeric `standard` rate `19`, its missing `reduced` rate defaults
to `0`, and country `FR` (row 1) has its string-encoded `standard`
rate as the number `20`. -/
theorem transformer_rows_shape_witness :
    ("standard", (19 : ℚ)) ∈
      ((transform_df_spec sampleSnap).get
        ⟨0, by simp [transform_df_spec, sampleSnap]⟩).rates ∧
    ("reduced", (0 : ℚ)) ∈
      ((transform_df_spec sampleSnap).get
        ⟨0, by simp [transform_df_spec, sampleSnap]⟩).rates ∧
    ("standard", (20 : ℚ)) ∈
      ((transform_df_spec sampleSnap).get
        ⟨1, by simp [transform_df_spec, sampleSnap]⟩).rates := by
  have h0 := (transformer_rows_shape sampleSnap).2 0 (by simp [sampleSnap])
    (by simp [transform_df_spec, sampleSnap])
  have h1 := (transformer_rows_shape sampleSnap).2 1 (by simp [sampleSnap])
    (by simp [transform_df_spec, sampleSnap])
  refine ⟨(h0.2.2.2 "standard" (by decide)).2.1 19 (by decide),
    (h0.2.2.2 "reduced" (by decide)).1 (by decide),
    (h1.2.2.2 "standard" (by decide)).2.2 20 (by decide)⟩

/-- Counterexample to C7 as stated: a response that is present and
non-empty, with a valid-JSON body, but with an HTTP error status
(falsy response object) — the claimed error condition ("absent, empty,
or not valid JSON") is false, yet `extract` raises
(`'No data fetched'`). -/
theorem fetcher_error_iff_counterexample :
    isError (extract (some { ok := false, body := Body.json (Snapshot.mk [] 0) })) = true ∧
    claimedFetchError (some { ok := false, body := Body.json (Snapshot.mk [] 0) }) = false := by
  constructor <;> rfl

/-- C7 (amended): the fetcher raises an error if and only if the HTTP
response is absent (the request itself failed), unsuccessful (falsy
response object, i.e. HTTP error status), or its body is not valid
JSON (which includes an empty body); otherwise it returns the parsed
JSON document. -/
theorem fetcher_error_conditions (res : Option Response) :
    (isError (extract res) = true ↔
      res = none ∨ ∃ r, res = some r ∧ (r.ok = false ∨ json_loads r.body = none)) ∧
    (∀ (r : Response) (doc : Snapshot), res = some r → r.ok = true →
      json_loads r.body = some doc → extract res = Except.ok doc) := by
  cases res with
  | none =>
    exact ⟨by simp [extract, isError], fun r doc h => by cases h⟩
  | some r =>
    constructor
    · cases hok : r.ok with
      | false => simp [extract, isError, hok]
      | true =>
        cases hj : json_loads r.body with
        | none => simp [extract, isError, hok, hj]
        | some doc => simp [extract, isError, hok, hj]
    · intro r2 doc h hok hj
      cases h
      simp [extract, hok, hj]

/-- Witness for C7 (amended): a successful response with a valid JSON
body is parsed and returned. -/
theorem fetcher_error_conditions_witness :
    extract (some { ok := true, body := Body.json (Snapshot.mk [] 0) }) =
      Except.ok (Snapshot.mk [] 0) :=
  (fetcher_error_conditions _).2 _ _ rfl rfl rfl

end VatETL
